import Mathlib

/-!
Shallow embedding of the shipment CRUD core of the repository:
- `app/schemas/shipment.py` (pydantic validation models),
- `app/repositories/shipment_repository.py` (sqlite-backed repository),
- `app/services/shipment_service.py` (business logic).

The sqlite table (`app/db/init_db.py`) is

  CREATE TABLE shipments (
    id INTEGER PRIMARY KEY AUTOINCREMENT,
    content TEXT NOT NULL, weight REAL NOT NULL,
    status TEXT NOT NULL, destination INTEGER NOT NULL)

and is modelled as a list of rows plus the AUTOINCREMENT counter.
REAL weights are modelled as rationals; every claim about weights uses
only order comparisons, which are exact on the values involved.
-/

/-- `ShipmentStatus` enum of `app/schemas/shipment.py`. -/
inductive ShipmentStatus where
  | pending
  | in_transit
  | delivered
  | delayed
  | returned
deriving DecidableEq, Repr

/-- The `.value` of each enum member (`PENDING = "pending"`, ...). -/
def ShipmentStatus.value : ShipmentStatus → String
  | .pending => "pending"
  | .in_transit => "in transit"
  | .delivered => "delivered"
  | .delayed => "delayed"
  | .returned => "returned"

/-- Pydantic coercion of a string into the `ShipmentStatus` enum:
succeeds exactly on the five member values. -/
def ShipmentStatus.ofString : String → Option ShipmentStatus
  | "pending" => some .pending
  | "in transit" => some .in_transit
  | "delivered" => some .delivered
  | "delayed" => some .delayed
  | "returned" => some .returned
  | _ => none

/-- One row of the `shipments` table.  All columns are NOT NULL, so the
fields are plain values; `status` is stored as TEXT. -/
structure Row where
  id : Int
  content : String
  weight : ℚ
  status : String
  destination : Int
deriving DecidableEq, Repr

/-- The sqlite store: the rows of the `shipments` table together with the
AUTOINCREMENT counter (the id the next INSERT will be assigned; with
AUTOINCREMENT, deleted ids are never reused). -/
structure Store where
  rows : List Row
  nextId : Int
deriving DecidableEq, Repr

/-- Errors surfaced by the layers under verification:
`http` is FastAPI's `HTTPException(status_code, detail)`;
`validationError` is a pydantic constraint failure, carrying the offending
field and constraint; `integrityError` is sqlite's NOT NULL constraint
failure, carrying the offending column. -/
inductive ApiError where
  | http (status : Nat) (detail : String)
  | validationError (field : String) (constraint : String)
  | integrityError (column : String)
deriving DecidableEq, Repr

/-- Response model `Shipment` of `app/schemas/shipment.py`. -/
structure Shipment where
  id : Int
  content : String
  weight : ℚ
  status : ShipmentStatus
  destination : Int
deriving DecidableEq, Repr

/-- Request model `ShipmentCreate`: `content`, `weight`, `status` required,
`destination` optional (`None` when omitted). -/
structure ShipmentCreate where
  content : String
  weight : ℚ
  status : ShipmentStatus
  destination : Option Int := none
deriving DecidableEq, Repr

/-- Request model `ShipmentUpdate` (PUT): all four business fields required. -/
structure ShipmentUpdate where
  content : String
  weight : ℚ
  status : ShipmentStatus
  destination : Int
deriving DecidableEq, Repr

/-- Request model `ShipmentPatch` (PATCH): all four fields optional with
default `None`.  Pydantic distinguishes a field that was never supplied
from a field explicitly supplied as `null` (`model_dump(exclude_unset=True)`
keeps the latter), so each field is a double option: the outer layer is
"was the field supplied", the inner layer is "was the supplied value null". -/
structure ShipmentPatch where
  content : Option (Option String) := none
  weight : Option (Option ℚ) := none
  status : Option (Option ShipmentStatus) := none
  destination : Option (Option Int) := none
deriving DecidableEq, Repr

/-- The dict `data.model_dump(exclude_unset=True)` computed in
`patch_shipment`, after the service's enum-to-value conversion
(`update_data["status"] = update_data["status"].value` when the supplied
status is not None).  Same double-option encoding as `ShipmentPatch`. -/
structure UpdateData where
  content : Option (Option String) := none
  weight : Option (Option ℚ) := none
  status : Option (Option String) := none
  destination : Option (Option Int) := none
deriving DecidableEq, Repr

/-- `if not update_data:` — the dict is empty when no field was supplied. -/
def UpdateData.isEmpty (u : UpdateData) : Bool :=
  u.content.isNone && u.weight.isNone && u.status.isNone && u.destination.isNone

/-- Whether some supplied value in the dict is null (`None`); writing it
violates a NOT NULL constraint of the `shipments` table. -/
def UpdateData.hasNull (u : UpdateData) : Bool :=
  u.content == some none || u.weight == some none ||
    u.status == some none || u.destination == some none

/-- The table column (in table order) whose NOT NULL constraint a null
write hits first; used in the sqlite IntegrityError. -/
def UpdateData.firstNullColumn (u : UpdateData) : String :=
  if u.content == some none then "content"
  else if u.weight == some none then "weight"
  else if u.status == some none then "status"
  else "destination"

/-- Effect of `UPDATE shipments SET <supplied fields> WHERE id = ?` on one
matching row: each supplied non-null value replaces the column, everything
else (the id included) keeps its prior value. -/
def UpdateData.apply (u : UpdateData) (r : Row) : Row :=
  { id := r.id
    content := match u.content with | some (some c) => c | _ => r.content
    weight := match u.weight with | some (some w) => w | _ => r.weight
    status := match u.status with | some (some st) => st | _ => r.status
    destination := match u.destination with | some (some d) => d | _ => r.destination }

/-! ## Repository (`app/repositories/shipment_repository.py`)

Each method opens a connection, runs one SQL statement and commits.  A
SELECT never changes the store; a mutating statement either commits its
whole effect or (on a constraint failure) changes nothing — a single
sqlite statement is atomic and `get_db` closes without committing when the
statement raises. -/

/-- `find_by_id`: `SELECT * FROM shipments WHERE id = ?`, first matching row. -/
def ShipmentRepository.find_by_id (s : Store) (shipment_id : Int) : Option Row :=
  s.rows.find? (fun r => r.id == shipment_id)

/-- `find_all`: `SELECT * FROM shipments`. -/
def ShipmentRepository.find_all (s : Store) : List Row :=
  s.rows

/-- `find_latest`: `SELECT * FROM shipments ORDER BY id DESC LIMIT 1` —
the row with the maximum id (ids are unique: INTEGER PRIMARY KEY). -/
def ShipmentRepository.find_latest (s : Store) : Option Row :=
  s.rows.foldl
    (fun acc r =>
      match acc with
      | none => some r
      | some m => if m.id < r.id then some r else some m)
    none

/-- `insert`: `INSERT INTO shipments (content, weight, status, destination)
VALUES (?, ?, ?, ?)`; the new row receives the AUTOINCREMENT id, which is
returned (`cur.lastrowid`). -/
def ShipmentRepository.insert (s : Store) (content : String) (weight : ℚ)
    (status : String) (destination : Int) : Int × Store :=
  (s.nextId,
   { rows := s.rows ++
       [{ id := s.nextId, content := content, weight := weight,
          status := status, destination := destination }]
     nextId := s.nextId + 1 })

/-- `update_by_id`: `UPDATE shipments SET content = ?, weight = ?,
status = ?, destination = ? WHERE id = ?` (full replacement of the four
business columns on every matching row; the id column is not touched). -/
def ShipmentRepository.update_by_id (s : Store) (shipment_id : Int)
    (content : String) (weight : ℚ) (status : String) (destination : Int) : Store :=
  { rows := s.rows.map (fun r =>
      if r.id == shipment_id then
        { id := r.id, content := content, weight := weight,
          status := status, destination := destination }
      else r)
    nextId := s.nextId }

/-- `patch_by_id`: returns unchanged on an empty dict; otherwise runs
`UPDATE shipments SET <fields> WHERE id = ?`.  When a supplied value is
null and a row matches, sqlite raises an IntegrityError (NOT NULL
constraint) and the store is left unchanged; otherwise the supplied fields
of every matching row are replaced. -/
def ShipmentRepository.patch_by_id (s : Store) (shipment_id : Int)
    (update_data : UpdateData) : Except ApiError Store :=
  if update_data.isEmpty then .ok s
  else if update_data.hasNull && s.rows.any (fun r => r.id == shipment_id) then
    .error (.integrityError update_data.firstNullColumn)
  else
    .ok { rows := s.rows.map (fun r =>
            if r.id == shipment_id then update_data.apply r else r)
          nextId := s.nextId }

/-- `delete_by_id`: `DELETE FROM shipments WHERE id = ?`.  AUTOINCREMENT
keeps the id counter, so `nextId` is unchanged. -/
def ShipmentRepository.delete_by_id (s : Store) (shipment_id : Int) : Store :=
  { rows := s.rows.filter (fun r => !(r.id == shipment_id))
    nextId := s.nextId }

/-- `exists`: `SELECT 1 FROM shipments WHERE id = ? LIMIT 1` is some row. -/
def ShipmentRepository.exists_id (s : Store) (shipment_id : Int) : Bool :=
  s.rows.any (fun r => r.id == shipment_id)

/-! ## Pydantic validation of stored rows and of the PATCH body

`Shipment(**row)` in the service re-validates every constraint of the
response model; a row violating one raises a pydantic ValidationError. -/

/-- `Shipment(**row)`: pydantic construction of the response model from a
row dict — coerces `status` into the enum and checks every field
constraint (`max_length=100`, `0 < weight < 25`,
`11000 ≤ destination ≤ 11999`). -/
def Shipment.ofRow (r : Row) : Except ApiError Shipment :=
  if r.content.length > 100 then
    .error (.validationError "content" "string_too_long max_length=100")
  else if ¬ (0 < r.weight) then
    .error (.validationError "weight" "greater_than gt=0")
  else if ¬ (r.weight < 25) then
    .error (.validationError "weight" "less_than lt=25")
  else
    match ShipmentStatus.ofString r.status with
    | none => .error (.validationError "status" "enum")
    | some st =>
      if r.destination < 11000 then
        .error (.validationError "destination" "greater_than_equal ge=11000")
      else if 11999 < r.destination then
        .error (.validationError "destination" "less_than_equal le=11999")
      else
        .ok { id := r.id, content := r.content, weight := r.weight,
              status := st, destination := r.destination }

/-- A raw `POST /shipments` body after JSON parsing, before pydantic
constraint checks (`status` still a string). -/
structure RawShipmentCreate where
  content : String
  weight : ℚ
  status : String
  destination : Option Int := none
deriving DecidableEq, Repr

/-- Pydantic validation of the `ShipmentCreate` request model: `content`
has only `max_length=100` (no minimum length), `weight` has `gt=0, lt=25`,
`status` must coerce into the enum, and a supplied `destination` must lie
in `[11000, 11999]`; an omitted `destination` defaults to `None`. -/
def validateShipmentCreate (r : RawShipmentCreate) : Except ApiError ShipmentCreate :=
  if r.content.length > 100 then
    .error (.validationError "content" "string_too_long max_length=100")
  else if ¬ (0 < r.weight) then
    .error (.validationError "weight" "greater_than gt=0")
  else if ¬ (r.weight < 25) then
    .error (.validationError "weight" "less_than lt=25")
  else
    match ShipmentStatus.ofString r.status with
    | none => .error (.validationError "status" "enum")
    | some st =>
      match r.destination with
      | none => .ok { content := r.content, weight := r.weight, status := st }
      | some d =>
        if d < 11000 then
          .error (.validationError "destination" "greater_than_equal ge=11000")
        else if 11999 < d then
          .error (.validationError "destination" "less_than_equal le=11999")
        else
          .ok { content := r.content, weight := r.weight, status := st,
                destination := some d }

/-- A raw `PUT /shipments/{id}` body after JSON parsing. -/
structure RawShipmentUpdate where
  content : String
  weight : ℚ
  status : String
  destination : Int
deriving DecidableEq, Repr

/-- Pydantic validation of the `ShipmentUpdate` request model: same field
constraints as create, with `destination` required. -/
def validateShipmentUpdate (r : RawShipmentUpdate) : Except ApiError ShipmentUpdate :=
  if r.content.length > 100 then
    .error (.validationError "content" "string_too_long max_length=100")
  else if ¬ (0 < r.weight) then
    .error (.validationError "weight" "greater_than gt=0")
  else if ¬ (r.weight < 25) then
    .error (.validationError "weight" "less_than lt=25")
  else
    match ShipmentStatus.ofString r.status with
    | none => .error (.validationError "status" "enum")
    | some st =>
      if r.destination < 11000 then
        .error (.validationError "destination" "greater_than_equal ge=11000")
      else if 11999 < r.destination then
        .error (.validationError "destination" "less_than_equal le=11999")
      else
        .ok { content := r.content, weight := r.weight, status := st,
              destination := r.destination }

/-! ## Service (`app/services/shipment_service.py`)

Each operation is a function from the store (plus arguments) to a result
and the store after the call.  `randint(11000, 11999)` in `create_shipment`
is modelled by an explicit argument `rnd`, the value the generator drew. -/

/-- `get_shipment`: `find_by_id`; 404 when absent; otherwise
`Shipment(**shipment)`. -/
def ShipmentService.get_shipment (s : Store) (shipment_id : Int) :
    Except ApiError Shipment × Store :=
  match ShipmentRepository.find_by_id s shipment_id with
  | none =>
    (.error (.http 404 ("Shipment with ID " ++ toString shipment_id ++ " not found")), s)
  | some row => (Shipment.ofRow row, s)

/-- `get_latest_shipment`: `find_latest`; 404 when the store is empty;
otherwise `Shipment(**shipment)`. -/
def ShipmentService.get_latest_shipment (s : Store) :
    Except ApiError Shipment × Store :=
  match ShipmentRepository.find_latest s with
  | none => (.error (.http 404 "No shipments found"), s)
  | some row => (Shipment.ofRow row, s)

/-- `list_all_shipments`: `{s["id"]: Shipment(**s) for s in find_all()}` —
an association of each row's id with its response model (a pydantic error
on any row propagates). -/
def ShipmentService.list_all_shipments (s : Store) :
    Except ApiError (List (Int × Shipment)) × Store :=
  (s.rows.mapM (fun r => (Shipment.ofRow r).map (fun sh => (r.id, sh))), s)

/-- `create_shipment`: raises 406 when `data.weight > 25`; resolves
`destination` to the supplied value or the random draw `rnd`; inserts;
returns `get_shipment(new_id)` on the store after the insert. -/
def ShipmentService.create_shipment (s : Store) (data : ShipmentCreate)
    (rnd : Int) : Except ApiError Shipment × Store :=
  if 25 < data.weight then
    (.error (.http 406 "Maximum weight limit is 25 kgs."), s)
  else
    let destination := data.destination.getD rnd
    let inserted := ShipmentRepository.insert s data.content data.weight
      data.status.value destination
    ((ShipmentService.get_shipment inserted.2 inserted.1).1, inserted.2)

/-- `update_shipment` (PUT): 404 when the id is absent; otherwise
`update_by_id` with all four fields and `get_shipment` read-back. -/
def ShipmentService.update_shipment (s : Store) (shipment_id : Int)
    (data : ShipmentUpdate) : Except ApiError Shipment × Store :=
  if !(ShipmentRepository.exists_id s shipment_id) then
    (.error (.http 404 ("Shipment with ID " ++ toString shipment_id ++ " not found")), s)
  else
    let s1 := ShipmentRepository.update_by_id s shipment_id data.content
      data.weight data.status.value data.destination
    ((ShipmentService.get_shipment s1 shipment_id).1, s1)

/-- The dict `data.model_dump(exclude_unset=True)` of a `ShipmentPatch`,
followed by the service's conversion of a supplied non-null status to its
`.value` string; a supplied null stays null
(`if "status" in update_data and update_data["status"] is not None`). -/
def ShipmentPatch.dumpExcludeUnset (data : ShipmentPatch) : UpdateData :=
  { content := data.content
    weight := data.weight
    status := data.status.map (fun o => o.map ShipmentStatus.value)
    destination := data.destination }

/-- `patch_shipment` (PATCH): 404 when the id is absent; dumps the
explicitly-supplied fields; calls `patch_by_id` only when that set is
non-empty (an IntegrityError from the write propagates, leaving the store
unchanged); returns `get_shipment` on the resulting store. -/
def ShipmentService.patch_shipment (s : Store) (shipment_id : Int)
    (data : ShipmentPatch) : Except ApiError Shipment × Store :=
  if !(ShipmentRepository.exists_id s shipment_id) then
    (.error (.http 404 ("Shipment with ID " ++ toString shipment_id ++ " not found")), s)
  else
    let update_data := data.dumpExcludeUnset
    if update_data.isEmpty then
      ((ShipmentService.get_shipment s shipment_id).1, s)
    else
      match ShipmentRepository.patch_by_id s shipment_id update_data with
      | .error e => (.error e, s)
      | .ok s1 => ((ShipmentService.get_shipment s1 shipment_id).1, s1)

/-- `delete_shipment`: 404 when the id is absent; otherwise `delete_by_id`. -/
def ShipmentService.delete_shipment (s : Store) (shipment_id : Int) :
    Except ApiError Unit × Store :=
  if !(ShipmentRepository.exists_id s shipment_id) then
    (.error (.http 404 ("Shipment with ID " ++ toString shipment_id ++ " not found")), s)
  else
    (.ok (), ShipmentRepository.delete_by_id s shipment_id)

/-- A value of one column of a row dict (`shipment[field_name]`). -/
inductive FieldValue where
  | int (v : Int)
  | str (v : String)
  | real (v : ℚ)
deriving DecidableEq, Repr

/-- Lookup in the row dict produced by `SELECT *`: its keys are the table
columns `id, content, weight, status, destination`, in that order. -/
def Row.lookupField (r : Row) (key : String) : Option FieldValue :=
  if key = "id" then some (.int r.id)
  else if key = "content" then some (.str r.content)
  else if key = "weight" then some (.real r.weight)
  else if key = "status" then some (.str r.status)
  else if key = "destination" then some (.int r.destination)
  else none

/-- The string `", ".join(shipment.keys())` of the error detail. -/
def rowKeysJoined : String := "id, content, weight, status, destination"

/-- `get_shipment_field`: 404 when the id is absent; 400 listing
`shipment.keys()` when `field_name not in shipment`; otherwise the raw
stored value `shipment[field_name]`. -/
def ShipmentService.get_shipment_field (s : Store) (shipment_id : Int)
    (field_name : String) : Except ApiError FieldValue × Store :=
  match ShipmentRepository.find_by_id s shipment_id with
  | none =>
    (.error (.http 404 ("Shipment with ID " ++ toString shipment_id ++ " not found")), s)
  | some row =>
    match row.lookupField field_name with
    | none =>
      (.error (.http 400 ("Field '" ++ field_name ++
        "' does not exist. Valid fields: " ++ rowKeysJoined)), s)
    | some v => (.ok v, s)

/-- The full create path behind `POST /shipments`: pydantic validation of
the body, then `create_shipment`.  A validation failure never reaches the
service. -/
def createPipeline (s : Store) (r : RawShipmentCreate) (rnd : Int) :
    Except ApiError Shipment × Store :=
  match validateShipmentCreate r with
  | .error e => (.error e, s)
  | .ok data => ShipmentService.create_shipment s data rnd

/-! ## Validity predicates

Pydantic enforces the field constraints of a request model when the model
instance is constructed, so every `ShipmentCreate`, `ShipmentUpdate` or
`ShipmentPatch` value reaching the service satisfies them; the predicates
below state those guarantees.  `RowValid` states the constraints the
response model `Shipment(**row)` re-checks on a stored row. -/

/-- `OptionHolds P o`: the constraint `P` holds of the carried value when
there is one (pydantic checks a constraint only on a non-`None` value). -/
def OptionHolds {α : Type} (P : α → Prop) : Option α → Prop
  | none => True
  | some a => P a

instance {α : Type} (P : α → Prop) [DecidablePred P] (o : Option α) :
    Decidable (OptionHolds P o) :=
  match o with
  | none => isTrue trivial
  | some a => inferInstanceAs (Decidable (P a))

/-- A stored row satisfying every constraint of the response model. -/
def RowValid (r : Row) : Prop :=
  r.content.length ≤ 100 ∧ 0 < r.weight ∧ r.weight < 25 ∧
    (ShipmentStatus.ofString r.status).isSome ∧
    11000 ≤ r.destination ∧ r.destination ≤ 11999

instance (r : Row) : Decidable (RowValid r) := by
  unfold RowValid; exact inferInstance

/-- Well-formed store: every row satisfies the schema constraints (the
app only ever writes validated values) and every id is below the
AUTOINCREMENT counter (sqlite never hands out a used id). -/
def StoreWF (s : Store) : Prop :=
  (∀ r ∈ s.rows, RowValid r) ∧ ∀ r ∈ s.rows, r.id < s.nextId

instance (s : Store) : Decidable (StoreWF s) := by
  unfold StoreWF; exact inferInstance

/-- What pydantic guarantees of a constructed `ShipmentCreate`. -/
def ShipmentCreate.Valid (d : ShipmentCreate) : Prop :=
  d.content.length ≤ 100 ∧ 0 < d.weight ∧ d.weight < 25 ∧
    OptionHolds (fun v => 11000 ≤ v ∧ v ≤ 11999) d.destination

instance (d : ShipmentCreate) : Decidable d.Valid := by
  unfold ShipmentCreate.Valid; exact inferInstance

/-- What pydantic guarantees of a constructed `ShipmentUpdate`. -/
def ShipmentUpdate.Valid (d : ShipmentUpdate) : Prop :=
  d.content.length ≤ 100 ∧ 0 < d.weight ∧ d.weight < 25 ∧
    11000 ≤ d.destination ∧ d.destination ≤ 11999

instance (d : ShipmentUpdate) : Decidable d.Valid := by
  unfold ShipmentUpdate.Valid; exact inferInstance

/-- What pydantic guarantees of a constructed `ShipmentPatch`: each
constraint applies to a supplied non-null value (an explicit null is
accepted by every `Optional[...]` field of the patch model). -/
def ShipmentPatch.Valid (p : ShipmentPatch) : Prop :=
  OptionHolds (OptionHolds fun c => c.length ≤ 100) p.content ∧
    OptionHolds (OptionHolds fun w => 0 < w ∧ w < 25) p.weight ∧
    OptionHolds (OptionHolds fun v => 11000 ≤ v ∧ v ≤ 11999) p.destination

instance (p : ShipmentPatch) : Decidable p.Valid := by
  unfold ShipmentPatch.Valid; exact inferInstance

/-! ## Concrete data used to instantiate the theorems -/

/-- A store as `init_db` creates it: no rows, first id 1. -/
def emptyStore : Store := { rows := [], nextId := 1 }

/-- A valid stored row with id 1. -/
def sampleRow : Row :=
  { id := 1, content := "books", weight := 5, status := "pending",
    destination := 11234 }

/-- A store holding just `sampleRow`. -/
def sampleStore : Store := { rows := [sampleRow], nextId := 2 }

/-- The store after inserting ids 1, 2, 3 in order, with unrelated field
values. -/
def store123 : Store :=
  { rows :=
      [{ id := 1, content := "a", weight := 5, status := "pending", destination := 11100 },
       { id := 2, content := "b", weight := 6, status := "delivered", destination := 11200 },
       { id := 3, content := "c", weight := 7, status := "delayed", destination := 11300 }]
    nextId := 4 }

/-! ## Helper lemmas -/

/-- Storing `status.value` and coercing it back recovers the enum member. -/
theorem ShipmentStatus.ofString_value (st : ShipmentStatus) :
    ShipmentStatus.ofString st.value = some st := by
  cases st <;> rfl

/-- On a row satisfying every constraint, `Shipment(**row)` succeeds and
returns exactly the row's data. -/
theorem Shipment.ofRow_ok (r : Row) (st : ShipmentStatus)
    (hst : ShipmentStatus.ofString r.status = some st) (h : RowValid r) :
    Shipment.ofRow r = .ok ⟨r.id, r.content, r.weight, st, r.destination⟩ := by
  obtain ⟨h1, h2, h3, _h4, h5, h6⟩ := h
  simp only [Shipment.ofRow, hst]
  rw [if_neg (by omega), if_neg (not_not_intro h2), if_neg (not_not_intro h3),
    if_neg (by omega), if_neg (by omega)]

/-- `find?` over a list extended with a fresh row finds the new row when
no existing row carries its id. -/
theorem find_append_fresh (l : List Row) (x : Row) (i : Int) (hx : x.id = i)
    (h : ∀ r ∈ l, r.id ≠ i) :
    (l ++ [x]).find? (fun r => r.id == i) = some x := by
  rw [List.find?_append]
  have h1 : l.find? (fun r => r.id == i) = none :=
    List.find?_eq_none.2 (fun r hr => by simpa using h r hr)
  simp [h1, hx]

/-- The fold of `find_latest`, started from `some m`, returns an element
of the list or `m` itself, whose id dominates `m` and the whole list. -/
theorem foldl_latest_some (l : List Row) (m : Row) :
    ∃ row, l.foldl (fun acc r =>
        match acc with
        | none => some r
        | some m => if m.id < r.id then some r else some m) (some m) = some row ∧
      (row = m ∨ row ∈ l) ∧ m.id ≤ row.id ∧ ∀ r ∈ l, r.id ≤ row.id := by
  induction l generalizing m with
  | nil => exact ⟨m, rfl, Or.inl rfl, le_refl _, by simp⟩
  | cons a l ih =>
    by_cases h : m.id < a.id
    · obtain ⟨row, heq, hmem, hle, hall⟩ := ih a
      refine ⟨row, by simpa [h] using heq, ?_, by omega, ?_⟩
      · rcases hmem with hm | hm
        · exact Or.inr (hm ▸ List.mem_cons_self a l)
        · exact Or.inr (List.mem_cons_of_mem a hm)
      · intro r hr
        rcases List.mem_cons.1 hr with rfl | hr
        · exact hle
        · exact hall r hr
    · obtain ⟨row, heq, hmem, hle, hall⟩ := ih m
      refine ⟨row, by simpa [h] using heq, ?_, hle, ?_⟩
      · rcases hmem with hm | hm
        · exact Or.inl hm
        · exact Or.inr (List.mem_cons_of_mem a hm)
      · intro r hr
        rcases List.mem_cons.1 hr with rfl | hr
        · omega
        · exact hall r hr

/-- On a non-empty store, `find_latest` returns a stored row whose id is
maximal among the stored ids. -/
theorem find_latest_spec (s : Store) (hne : s.rows ≠ []) :
    ∃ row, ShipmentRepository.find_latest s = some row ∧ row ∈ s.rows ∧
      ∀ r ∈ s.rows, r.id ≤ row.id := by
  unfold ShipmentRepository.find_latest
  cases hrows : s.rows with
  | nil => exact absurd hrows hne
  | cons a l =>
    obtain ⟨row, heq, hmem, hle, hall⟩ := foldl_latest_some l a
    refine ⟨row, by simpa using heq, ?_, ?_⟩
    · rcases hmem with hm | hm
      · exact hm ▸ List.mem_cons_self a l
      · exact List.mem_cons_of_mem a hm
    · intro r hr
      rcases List.mem_cons.1 hr with rfl | hr
      · exact hle
      · exact hall r hr

/-- `find?` by id commutes with an id-preserving rewrite of the rows
that carry that id. -/
theorem find_map_keyed (l : List Row) (i : Int) (g : Row → Row)
    (hg : ∀ r, (g r).id = r.id) :
    (l.map (fun r => if r.id == i then g r else r)).find? (fun r => r.id == i) =
      (l.find? (fun r => r.id == i)).map g := by
  induction l with
  | nil => rfl
  | cons a l ih =>
    cases h : (a.id == i) with
    | true =>
      have hga : ((g a).id == i) = true := by
        have := hg a
        simp only [beq_iff_eq] at h ⊢
        omega
      rw [List.map_cons, if_pos h,
        List.find?_cons_of_pos (p := fun r : Row => r.id == i) _ hga,
        List.find?_cons_of_pos (p := fun r : Row => r.id == i) _ h, Option.map_some']
    | false =>
      rw [List.map_cons, if_neg (by simp [h]),
        List.find?_cons_of_neg (p := fun r : Row => r.id == i) _ (by simp [h]),
        List.find?_cons_of_neg (p := fun r : Row => r.id == i) _ (by simp [h]), ih]

/-- The dumped update dict is empty exactly when no patch field was
supplied. -/
theorem ShipmentPatch.dump_isEmpty (p : ShipmentPatch) :
    p.dumpExcludeUnset.isEmpty =
      (p.content.isNone && p.weight.isNone && p.status.isNone &&
        p.destination.isNone) := by
  unfold ShipmentPatch.dumpExcludeUnset UpdateData.isEmpty
  cases p.status <;> rfl

/-- An empty update dict applied to a row changes nothing. -/
theorem UpdateData.apply_of_isEmpty (u : UpdateData) (h : u.isEmpty = true)
    (r : Row) : u.apply r = r := by
  unfold UpdateData.isEmpty at h
  simp only [Bool.and_eq_true, Option.isNone_iff_eq_none] at h
  obtain ⟨⟨⟨h1, h2⟩, h3⟩, h4⟩ := h
  unfold UpdateData.apply
  rw [h1, h2, h3, h4]

/-- A successful `create_shipment` in full: with a pydantic-valid payload,
a random draw in range and a store whose ids are below the counter, the
service inserts one row carrying the next id and returns exactly the
payload's data with the assigned id and the resolved destination. -/
theorem create_shipment_ok (s : Store) (d : ShipmentCreate) (rnd : Int)
    (hIds : ∀ r ∈ s.rows, r.id < s.nextId)
    (hv : d.Valid) (hrnd : 11000 ≤ rnd ∧ rnd ≤ 11999) :
    ShipmentService.create_shipment s d rnd =
      (.ok ⟨s.nextId, d.content, d.weight, d.status, d.destination.getD rnd⟩,
       { rows := s.rows ++
           [⟨s.nextId, d.content, d.weight, d.status.value, d.destination.getD rnd⟩]
         nextId := s.nextId + 1 }) := by
  obtain ⟨hc, hw0, hw25, hdest⟩ := hv
  have hwne : ¬ (25 < d.weight) := not_lt.2 (le_of_lt hw25)
  have hfind := find_append_fresh s.rows
    ⟨s.nextId, d.content, d.weight, d.status.value, d.destination.getD rnd⟩
    s.nextId rfl (fun r hr => ne_of_lt (hIds r hr))
  have hdrange : 11000 ≤ d.destination.getD rnd ∧ d.destination.getD rnd ≤ 11999 := by
    cases hd : d.destination with
    | none => exact hrnd
    | some v => rw [hd] at hdest; exact hdest
  have hrv : RowValid
      ⟨s.nextId, d.content, d.weight, d.status.value, d.destination.getD rnd⟩ :=
    ⟨hc, hw0, hw25, by rw [ShipmentStatus.ofString_value]; rfl,
      hdrange.1, hdrange.2⟩
  have hof := Shipment.ofRow_ok
    ⟨s.nextId, d.content, d.weight, d.status.value, d.destination.getD rnd⟩
    d.status (ShipmentStatus.ofString_value d.status) hrv
  simp only [ShipmentService.create_shipment, if_neg hwne,
    ShipmentRepository.insert, ShipmentService.get_shipment,
    ShipmentRepository.find_by_id, hfind, hof]

/-- Applying a pydantic-valid patch dict to a valid row yields a valid
row: every written value satisfies its constraint, every kept value was
already valid, and a supplied status is stored as an enum member's value. -/
theorem RowValid_apply_dump (p : ShipmentPatch) (hp : p.Valid) (r : Row)
    (hr : RowValid r) : RowValid (p.dumpExcludeUnset.apply r) := by
  obtain ⟨hc, hw, hd⟩ := hp
  obtain ⟨rc, rw0, rw25, rst, rd1, rd2⟩ := hr
  unfold ShipmentPatch.dumpExcludeUnset UpdateData.apply
  refine ⟨?_, ?_, ?_, ?_, ?_, ?_⟩
  · cases hpc : p.content with
    | none => simpa using rc
    | some oc =>
      cases oc with
      | none => simpa using rc
      | some c => rw [hpc] at hc; simpa using hc
  · cases hpw : p.weight with
    | none => simpa using rw0
    | some ow =>
      cases ow with
      | none => simpa using rw0
      | some w => rw [hpw] at hw; simpa using hw.1
  · cases hpw : p.weight with
    | none => simpa using rw25
    | some ow =>
      cases ow with
      | none => simpa using rw25
      | some w => rw [hpw] at hw; simpa using hw.2
  · cases hps : p.status with
    | none => simpa using rst
    | some os =>
      cases os with
      | none => simpa using rst
      | some st => simp [ShipmentStatus.ofString_value]
  · cases hpd : p.destination with
    | none => simpa using rd1
    | some od =>
      cases od with
      | none => simpa using rd1
      | some v => rw [hpd] at hd; simpa using hd.1
  · cases hpd : p.destination with
    | none => simpa using rd2
    | some od =>
      cases od with
      | none => simpa using rd2
      | some v => rw [hpd] at hd; simpa using hd.2

/-- The row dict has exactly the five table columns as keys. -/
theorem lookupField_eq_none_iff (r : Row) (field : String) :
    r.lookupField field = none ↔
      field ∉ (["id", "content", "weight", "status", "destination"] : List String) := by
  unfold Row.lookupField
  by_cases h1 : field = "id" <;> by_cases h2 : field = "content" <;>
    by_cases h3 : field = "weight" <;> by_cases h4 : field = "status" <;>
    by_cases h5 : field = "destination" <;>
    simp [h1, h2, h3, h4, h5]

/-- What a successful `ShipmentCreate` validation guarantees: every field
is passed through unchanged (content in particular is never coerced or
truncated), with `status` coerced into the enum. -/
theorem validateShipmentCreate_ok (rc : RawShipmentCreate) (d : ShipmentCreate)
    (h : validateShipmentCreate rc = .ok d) :
    d.content = rc.content ∧ d.weight = rc.weight ∧
      ShipmentStatus.ofString rc.status = some d.status ∧
      d.destination = rc.destination := by
  unfold validateShipmentCreate at h
  split at h
  · simp at h
  split at h
  · simp at h
  split at h
  · simp at h
  split at h
  · simp at h
  rename_i st hst
  split at h
  · rename_i hd
    injection h with h
    subst h
    exact ⟨rfl, rfl, by rw [hst], by rw [hd]⟩
  · rename_i v hd
    split at h
    · simp at h
    split at h
    · simp at h
    injection h with h
    subst h
    exact ⟨rfl, rfl, by rw [hst], by rw [hd]⟩

/-- Same pass-through guarantee for a successful `ShipmentUpdate`
validation. -/
theorem validateShipmentUpdate_ok (ru : RawShipmentUpdate) (d : ShipmentUpdate)
    (h : validateShipmentUpdate ru = .ok d) :
    d.content = ru.content ∧ d.weight = ru.weight ∧
      ShipmentStatus.ofString ru.status = some d.status ∧
      d.destination = ru.destination := by
  unfold validateShipmentUpdate at h
  split at h
  · simp at h
  split at h
  · simp at h
  split at h
  · simp at h
  split at h
  · simp at h
  rename_i st hst
  split at h
  · simp at h
  split at h
  · simp at h
  injection h with h
  subst h
  exact ⟨rfl, rfl, by rw [hst], rfl⟩

/-! ## Claims -/

/-- C2 counterexample: a create payload with weight 30 (≥ 25) is rejected
by pydantic boundary validation as a generic validation failure on the
`weight` field, not by the service's 406 BusinessRuleViolation, so the
claim's "fails with a BusinessRuleViolation (406-equivalent, distinct from
generic validation failure)" is false at this input (no record is
persisted, but the error class is the generic one). -/
theorem C2_counterexample :
    createPipeline emptyStore
        { content := "books", weight := 30, status := "pending" } 11500 =
      (.error (.validationError "weight" "less_than lt=25"), emptyStore) ∧
    (createPipeline emptyStore
        { content := "books", weight := 30, status := "pending" } 11500).1 ≠
      .error (.http 406 "Maximum weight limit is 25 kgs.") := by
  refine ⟨rfl, ?_⟩
  have h1 : (createPipeline emptyStore
      { content := "books", weight := 30, status := "pending" } 11500).1 =
      .error (.validationError "weight" "less_than lt=25") := rfl
  rw [h1]
  simp

/-- C2 (amended): a create payload with weight ≥ 25 (and content within
the length bound, which pydantic checks first) is rejected before any
write — but by boundary validation as a generic ValidationFailure on
`weight`, never as a BusinessRuleViolation; the service's separate 406
BusinessRuleViolation check fires exactly on payloads with weight
strictly greater than 25 that reach it, also without persisting
anything. -/
theorem C2_weight_rejection_amended (s : Store) (r : RawShipmentCreate)
    (d : ShipmentCreate) (rnd : Int) :
    (r.content.length ≤ 100 → 25 ≤ r.weight →
      createPipeline s r rnd =
        (.error (.validationError "weight" "less_than lt=25"), s)) ∧
    (25 < d.weight →
      ShipmentService.create_shipment s d rnd =
        (.error (.http 406 "Maximum weight limit is 25 kgs."), s)) := by
  constructor
  · intro hc hw
    have hw0 : (0 : ℚ) < r.weight := lt_of_lt_of_le (by norm_num) hw
    unfold createPipeline validateShipmentCreate
    rw [if_neg (by omega), if_neg (not_not_intro hw0), if_pos (not_lt.2 hw)]
  · intro hw
    unfold ShipmentService.create_shipment
    rw [if_pos hw]

/-- C2 witness: the amended theorem at weight 26 on the empty store, both
at the boundary (pipeline) and at the service. -/
theorem C2_weight_rejection_amended_witness :
    createPipeline emptyStore
        { content := "books", weight := 26, status := "pending" } 11500 =
      (.error (.validationError "weight" "less_than lt=25"), emptyStore) ∧
    ShipmentService.create_shipment emptyStore
        { content := "books", weight := 26, status := .pending } 11500 =
      (.error (.http 406 "Maximum weight limit is 25 kgs."), emptyStore) :=
  ⟨(C2_weight_rejection_amended emptyStore
      { content := "books", weight := 26, status := "pending" }
      { content := "books", weight := 26, status := .pending } 11500).1
      (by decide) (by decide),
   (C2_weight_rejection_amended emptyStore
      { content := "books", weight := 26, status := "pending" }
      { content := "books", weight := 26, status := .pending } 11500).2
      (by decide)⟩

/-- C3 counterexample: on a stored record with id 1, requesting the field
"id" succeeds with the stored id instead of failing InvalidField (the row
dict from `SELECT *` contains the key `id`), and requesting "bogus" fails
with a message listing five field names, not the four the claim states. -/
theorem C3_counterexample :
    (ShipmentService.get_shipment_field sampleStore 1 "id").1 =
      .ok (.int 1) ∧
    (ShipmentService.get_shipment_field sampleStore 1 "bogus").1 =
      .error (.http 400
        "Field 'bogus' does not exist. Valid fields: id, content, weight, status, destination") := by
  exact ⟨by rfl, by rfl⟩

/-- C3 (amended): for a shipment id present in the store, `getField`
fails with an InvalidField error (400, naming the row's key set
`id, content, weight, status, destination`) if and only if the requested
field is not one of those five columns; otherwise it returns that single
stored value. -/
theorem C3_get_field_amended (s : Store) (i : Int) (field : String)
    (row : Row) (hfind : ShipmentRepository.find_by_id s i = some row) :
    ((ShipmentService.get_shipment_field s i field).1 =
        .error (.http 400 ("Field '" ++ field ++
          "' does not exist. Valid fields: " ++ rowKeysJoined)) ↔
      field ∉ (["id", "content", "weight", "status", "destination"] :
        List String)) ∧
    (∀ v, row.lookupField field = some v →
      (ShipmentService.get_shipment_field s i field).1 = .ok v) := by
  cases hlook : row.lookupField field with
  | none =>
    have hres : (ShipmentService.get_shipment_field s i field).1 =
        .error (.http 400 ("Field '" ++ field ++
          "' does not exist. Valid fields: " ++ rowKeysJoined)) := by
      simp only [ShipmentService.get_shipment_field, hfind, hlook]
    constructor
    · exact iff_of_true hres ((lookupField_eq_none_iff row field).1 hlook)
    · intro v hv
      cases hv
  | some v =>
    have hres : (ShipmentService.get_shipment_field s i field).1 = .ok v := by
      simp only [ShipmentService.get_shipment_field, hfind, hlook]
    constructor
    · apply iff_of_false
      · rw [hres]
        simp
      · intro h
        have hn := (lookupField_eq_none_iff row field).2 h
        rw [hn] at hlook
        cases hlook
    · intro w hw
      injection hw with hw
      subst hw
      exact hres

/-- C3 witness: the amended theorem instantiated on the sample store at
field "weight" — the stored value is returned. -/
theorem C3_get_field_amended_witness :
    (ShipmentService.get_shipment_field sampleStore 1 "weight").1 =
      .ok (.real 5) :=
  (C3_get_field_amended sampleStore 1 "weight" sampleRow rfl).2 (.real 5) rfl
/-- C6 counterexample: the empty content string (length 0, outside the
claimed 1–100 range) is accepted by create-payload boundary validation —
the pydantic field declares `max_length=100` but no minimum length, so the
claim's rejection of contents shorter than 1 character is false. -/
theorem C6_counterexample :
    validateShipmentCreate { content := "", weight := 5, status := "pending" } =
      .ok { content := "", weight := 5, status := .pending } := by
  rfl

/-- C6 (amended): boundary validation rejects a content value longer than
100 characters with a structured error naming the field and the
constraint, and accepts every content value of at most 100 characters —
the empty string included, since no minimum length is enforced; an
accepted content value is passed through unchanged (never coerced or
truncated).  This holds for both the create and the full-update payload. -/
theorem C6_content_validation_amended (rc : RawShipmentCreate)
    (ru : RawShipmentUpdate) :
    (100 < rc.content.length →
      validateShipmentCreate rc =
        .error (.validationError "content" "string_too_long max_length=100")) ∧
    (∀ d, validateShipmentCreate rc = .ok d → d.content = rc.content) ∧
    (rc.content.length ≤ 100 → 0 < rc.weight → rc.weight < 25 →
      (ShipmentStatus.ofString rc.status).isSome →
      OptionHolds (fun v => 11000 ≤ v ∧ v ≤ 11999) rc.destination →
      ∃ d, validateShipmentCreate rc = .ok d ∧ d.content = rc.content) ∧
    (100 < ru.content.length →
      validateShipmentUpdate ru =
        .error (.validationError "content" "string_too_long max_length=100")) ∧
    (∀ d, validateShipmentUpdate ru = .ok d → d.content = ru.content) := by
  refine ⟨?_, ?_, ?_, ?_, ?_⟩
  · intro h
    unfold validateShipmentCreate
    rw [if_pos (by omega)]
  · intro d h
    exact (validateShipmentCreate_ok rc d h).1
  · intro hc hw0 hw25 hstS hdest
    obtain ⟨st, hst⟩ := Option.isSome_iff_exists.1 hstS
    cases hd : rc.destination with
    | none =>
      refine ⟨{ content := rc.content, weight := rc.weight, status := st },
        ?_, rfl⟩
      simp only [validateShipmentCreate, hst, hd]
      rw [if_neg (by omega), if_neg (not_not_intro hw0),
        if_neg (not_not_intro hw25)]
    | some v =>
      rw [hd] at hdest
      have hdv : 11000 ≤ v ∧ v ≤ 11999 := hdest
      refine ⟨{ content := rc.content, weight := rc.weight, status := st,
                destination := some v }, ?_, rfl⟩
      simp only [validateShipmentCreate, hst, hd]
      rw [if_neg (by omega), if_neg (not_not_intro hw0),
        if_neg (not_not_intro hw25), if_neg (by omega), if_neg (by omega)]
  · intro h
    unfold validateShipmentUpdate
    rw [if_pos (by omega)]
  · intro d h
    exact (validateShipmentUpdate_ok ru d h).1

/-- C6 witness: a 100-character content is accepted unchanged for create,
and a 101-character one is rejected for full update. -/
theorem C6_content_validation_amended_witness :
    (∃ d, validateShipmentCreate
        { content := String.mk (List.replicate 100 'a'), weight := 5,
          status := "pending" } = .ok d ∧
      d.content = String.mk (List.replicate 100 'a')) ∧
    validateShipmentUpdate
        { content := String.mk (List.replicate 101 'a'), weight := 5,
          status := "pending", destination := 11234 } =
      .error (.validationError "content" "string_too_long max_length=100") :=
  ⟨(C6_content_validation_amended
      { content := String.mk (List.replicate 100 'a'), weight := 5,
        status := "pending" }
      { content := String.mk (List.replicate 101 'a'), weight := 5,
        status := "pending", destination := 11234 }).2.2.1
      (by decide) (by decide) (by decide) (by decide) (by decide),
   (C6_content_validation_amended
      { content := String.mk (List.replicate 100 'a'), weight := 5,
        status := "pending" }
      { content := String.mk (List.replicate 101 'a'), weight := 5,
        status := "pending", destination := 11234 }).2.2.2.1
      (by decide)⟩

/-- C4: for every pydantic-valid create payload (and in-range random
draw, with the store ids below the AUTOINCREMENT counter), `create`
returns ok with exactly the payload's content, weight and status plus the
assigned id and the resolved destination, and reading the returned id
back from the store after the call yields the very record `create`
returned. -/
theorem C4_create_roundtrip (s : Store) (d : ShipmentCreate) (rnd : Int)
    (hIds : ∀ r ∈ s.rows, r.id < s.nextId) (hv : d.Valid)
    (hrnd : 11000 ≤ rnd ∧ rnd ≤ 11999) :
    (ShipmentService.create_shipment s d rnd).1 =
      .ok ⟨s.nextId, d.content, d.weight, d.status, d.destination.getD rnd⟩ ∧
    (ShipmentService.get_shipment
        (ShipmentService.create_shipment s d rnd).2 s.nextId).1 =
      (ShipmentService.create_shipment s d rnd).1 := by
  have h := create_shipment_ok s d rnd hIds hv hrnd
  obtain ⟨hc, hw0, hw25, hdest⟩ := hv
  have hdrange : 11000 ≤ d.destination.getD rnd ∧ d.destination.getD rnd ≤ 11999 := by
    cases hd : d.destination with
    | none => exact hrnd
    | some v => rw [hd] at hdest; exact hdest
  have hfind := find_append_fresh s.rows
    ⟨s.nextId, d.content, d.weight, d.status.value, d.destination.getD rnd⟩
    s.nextId rfl (fun r hr => ne_of_lt (hIds r hr))
  have hof := Shipment.ofRow_ok
    ⟨s.nextId, d.content, d.weight, d.status.value, d.destination.getD rnd⟩
    d.status (ShipmentStatus.ofString_value d.status)
    ⟨hc, hw0, hw25, by rw [ShipmentStatus.ofString_value]; rfl,
      hdrange.1, hdrange.2⟩
  constructor
  · rw [h]
  · rw [h]
    simp only [ShipmentService.get_shipment, ShipmentRepository.find_by_id,
      hfind, hof]

/-- C4 witness: creating `{content := "books", weight := 5,
status := pending, destination := 11234}` on the fresh store assigns id 1
and reads back exactly that record. -/
theorem C4_create_roundtrip_witness :
    (ShipmentService.create_shipment emptyStore
        { content := "books", weight := 5, status := .pending,
          destination := some 11234 } 11500).1 =
      .ok ⟨1, "books", 5, .pending, 11234⟩ ∧
    (ShipmentService.get_shipment
        (ShipmentService.create_shipment emptyStore
          { content := "books", weight := 5, status := .pending,
            destination := some 11234 } 11500).2 1).1 =
      (ShipmentService.create_shipment emptyStore
        { content := "books", weight := 5, status := .pending,
          destination := some 11234 } 11500).1 :=
  C4_create_roundtrip emptyStore
    { content := "books", weight := 5, status := .pending,
      destination := some 11234 } 11500
    (by decide) (by decide) (by decide)

/-- C5: on stores whose rows satisfy the schema constraints, `getLatest`
fails with the 404 NotFound exactly when the store is empty, and on a
non-empty store it returns the stored record whose id is maximal,
whatever the other field values of any record are. -/
theorem C5_get_latest (s : Store) (hv : ∀ r ∈ s.rows, RowValid r) :
    ((ShipmentService.get_latest_shipment s).1 =
        .error (.http 404 "No shipments found") ↔ s.rows = []) ∧
    (s.rows ≠ [] → ∃ row st,
      ShipmentRepository.find_latest s = some row ∧ row ∈ s.rows ∧
      (∀ r ∈ s.rows, r.id ≤ row.id) ∧
      ShipmentStatus.ofString row.status = some st ∧
      (ShipmentService.get_latest_shipment s).1 =
        .ok ⟨row.id, row.content, row.weight, st, row.destination⟩) := by
  by_cases hne : s.rows = []
  · have hfl : ShipmentRepository.find_latest s = none := by
      simp [ShipmentRepository.find_latest, hne]
    constructor
    · exact iff_of_true
        (by simp [ShipmentService.get_latest_shipment, hfl]) hne
    · intro h
      exact absurd hne h
  · obtain ⟨row, hfl, hmem, hmax⟩ := find_latest_spec s hne
    have hrv := hv row hmem
    obtain ⟨st, hst⟩ := Option.isSome_iff_exists.1 hrv.2.2.2.1
    have hok := Shipment.ofRow_ok row st hst hrv
    have hres : (ShipmentService.get_latest_shipment s).1 =
        .ok ⟨row.id, row.content, row.weight, st, row.destination⟩ := by
      simp only [ShipmentService.get_latest_shipment, hfl, hok]
    constructor
    · apply iff_of_false
      · rw [hres]
        simp
      · exact hne
    · intro _
      exact ⟨row, st, hfl, hmem, hmax, hst, hres⟩

/-- C5 witness: on the store holding ids 1, 2, 3 (all rows valid),
`getLatest` does not fail NotFound. -/
theorem C5_get_latest_witness :
    (ShipmentService.get_latest_shipment store123).1 ≠
      .error (.http 404 "No shipments found") :=
  fun he =>
    absurd ((C5_get_latest store123 (by decide)).1.1 he) (by decide)

/-- C7: for every pydantic-valid create payload (in-range random draw,
ids below the counter): a supplied destination is preserved exactly in
the created record, and an omitted destination resolves to a value in
[11000, 11999] (the random draw, whose range is `randint(11000, 11999)`). -/
theorem C7_destination_resolution (s : Store) (d : ShipmentCreate)
    (rnd : Int) (hIds : ∀ r ∈ s.rows, r.id < s.nextId) (hv : d.Valid)
    (hrnd : 11000 ≤ rnd ∧ rnd ≤ 11999) :
    (∀ v, d.destination = some v →
      (ShipmentService.create_shipment s d rnd).1 =
        .ok ⟨s.nextId, d.content, d.weight, d.status, v⟩) ∧
    (d.destination = none → ∃ sh,
      (ShipmentService.create_shipment s d rnd).1 = .ok sh ∧
      11000 ≤ sh.destination ∧ sh.destination ≤ 11999) := by
  have h := create_shipment_ok s d rnd hIds hv hrnd
  constructor
  · intro v hd
    rw [h]
    simp [hd]
  · intro hd
    refine ⟨⟨s.nextId, d.content, d.weight, d.status, rnd⟩, ?_, hrnd.1, hrnd.2⟩
    rw [h]
    simp [hd]

/-- C7 witness: with destination 11234 supplied the created record keeps
it; with destination omitted the created record's destination is the
draw, inside [11000, 11999]. -/
theorem C7_destination_resolution_witness :
    (ShipmentService.create_shipment emptyStore
        { content := "books", weight := 5, status := .pending,
          destination := some 11234 } 11500).1 =
      .ok ⟨1, "books", 5, .pending, 11234⟩ ∧
    (∃ sh, (ShipmentService.create_shipment emptyStore
        { content := "books", weight := 5, status := .pending } 11500).1 =
        .ok sh ∧ 11000 ≤ sh.destination ∧ sh.destination ≤ 11999) :=
  ⟨(C7_destination_resolution emptyStore
      { content := "books", weight := 5, status := .pending,
        destination := some 11234 } 11500
      (by decide) (by decide) (by decide)).1 11234 rfl,
   (C7_destination_resolution emptyStore
      { content := "books", weight := 5, status := .pending } 11500
      (by decide) (by decide) (by decide)).2 rfl⟩

/-- C8: `delete` fails with the 404 NotFound (and leaves the store as it
was) when the id is absent; after a successful delete of an existing id,
reading that id back always yields the 404 NotFound. -/
theorem C8_delete_then_get (s : Store) (i : Int) :
    (ShipmentRepository.exists_id s i = false →
      ShipmentService.delete_shipment s i =
        (.error (.http 404 ("Shipment with ID " ++ toString i ++ " not found")), s)) ∧
    (ShipmentRepository.exists_id s i = true →
      (ShipmentService.delete_shipment s i).1 = .ok () ∧
      (ShipmentService.get_shipment
          (ShipmentService.delete_shipment s i).2 i).1 =
        .error (.http 404 ("Shipment with ID " ++ toString i ++ " not found"))) := by
  constructor
  · intro h
    simp [ShipmentService.delete_shipment, h]
  · intro h
    have hnone : (ShipmentRepository.delete_by_id s i).rows.find?
        (fun r => r.id == i) = none := by
      apply List.find?_eq_none.2
      intro x hx
      unfold ShipmentRepository.delete_by_id at hx
      simp only [List.mem_filter, Bool.not_eq_eq_eq_not, Bool.not_true] at hx
      simp [hx.2]
    constructor
    · simp [ShipmentService.delete_shipment, h]
    · simp [ShipmentService.delete_shipment, h,
        ShipmentService.get_shipment, ShipmentRepository.find_by_id, hnone]

/-- C8 witness: deleting id 1 from the sample store succeeds and the
subsequent read of id 1 is the 404 NotFound. -/
theorem C8_delete_then_get_witness :
    (ShipmentService.delete_shipment sampleStore 1).1 = .ok () ∧
    (ShipmentService.get_shipment
        (ShipmentService.delete_shipment sampleStore 1).2 1).1 =
      .error (.http 404 "Shipment with ID 1 not found") :=
  (C8_delete_then_get sampleStore 1).2 (by decide)

/-- When no supplied patch value is null, `patch_shipment` on an
existing id leaves the rows as the per-row application of the dumped
update set (the empty set applying as the identity, with no write). -/
theorem patch_shipment_rows_nonull (s : Store) (i : Int) (p : ShipmentPatch)
    (hex : ShipmentRepository.exists_id s i = true)
    (hnn : p.dumpExcludeUnset.hasNull = false) :
    (ShipmentService.patch_shipment s i p).2.rows =
      s.rows.map (fun r =>
        if r.id == i then p.dumpExcludeUnset.apply r else r) := by
  by_cases hemp : p.dumpExcludeUnset.isEmpty = true
  · have hid : (ShipmentService.patch_shipment s i p).2 = s := by
      simp [ShipmentService.patch_shipment, hex, hemp]
    have hpoint : ∀ r : Row,
        (if r.id == i then p.dumpExcludeUnset.apply r else r) = r := by
      intro r
      rw [UpdateData.apply_of_isEmpty _ hemp, ite_self]
    rw [hid]
    simp only [hpoint, List.map_id']
  · have hpatch : ShipmentRepository.patch_by_id s i p.dumpExcludeUnset =
        .ok { rows := s.rows.map (fun r =>
                if r.id == i then p.dumpExcludeUnset.apply r else r)
              nextId := s.nextId } := by
      unfold ShipmentRepository.patch_by_id
      rw [if_neg hemp, if_neg (by rw [hnn]; simp)]
    simp [ShipmentService.patch_shipment, hex, hemp, hpatch]

/-- C10: for an existing id, every patch field explicitly supplied as
null — content, weight, status or destination, whatever else the payload
supplies — is kept in the dumped update set and written toward the
store: the UPDATE then hits a NOT NULL constraint, so the call fails
with the IntegrityError naming the first null column of the update set
and the store is unchanged, rather than the field being dropped and
left untouched (dropping the null would have made the call succeed).
Only a supplied non-null status is converted before the write: it is
stored as its enum value, the other supplied fields verbatim. -/
theorem C10_null_passthrough (s : Store) (i : Int) (p : ShipmentPatch)
    (hex : ShipmentRepository.exists_id s i = true) :
    ((p.content = some none ∨ p.weight = some none ∨ p.status = some none ∨
        p.destination = some none) →
      ShipmentService.patch_shipment s i p =
        (.error (.integrityError p.dumpExcludeUnset.firstNullColumn), s)) ∧
    (∀ st : ShipmentStatus, p.status = some (some st) →
      p.dumpExcludeUnset.hasNull = false →
      (ShipmentService.patch_shipment s i p).2.rows =
        s.rows.map (fun r =>
          if r.id == i then
            { id := r.id
              content := (match p.content with | some (some c) => c | _ => r.content)
              weight := (match p.weight with | some (some w) => w | _ => r.weight)
              status := st.value
              destination := (match p.destination with | some (some v) => v | _ => r.destination) }
          else r)) := by
  have hany : s.rows.any (fun r => r.id == i) = true := hex
  constructor
  · intro hnull
    have hemp : p.dumpExcludeUnset.isEmpty = false := by
      rcases hnull with h | h | h | h <;>
        simp [UpdateData.isEmpty, ShipmentPatch.dumpExcludeUnset, h]
    have hnul : p.dumpExcludeUnset.hasNull = true := by
      rcases hnull with h | h | h | h <;>
        simp [UpdateData.hasNull, ShipmentPatch.dumpExcludeUnset, h]
    simp [ShipmentService.patch_shipment, hex, hemp,
      ShipmentRepository.patch_by_id, hnul, hany]
  · intro st hps hnn
    rw [patch_shipment_rows_nonull s i p hex hnn]
    have hfun : (fun r : Row =>
        if r.id == i then p.dumpExcludeUnset.apply r else r) =
        (fun r : Row =>
          if r.id == i then
            { id := r.id
              content := (match p.content with | some (some c) => c | _ => r.content)
              weight := (match p.weight with | some (some w) => w | _ => r.weight)
              status := st.value
              destination := (match p.destination with | some (some v) => v | _ => r.destination) }
          else r) := by
      funext r
      simp [ShipmentPatch.dumpExcludeUnset, UpdateData.apply, hps]
    rw [hfun]

/-- C10 witness: patching id 1 of the sample store with only a null
destination fails with the NOT NULL IntegrityError on `destination` (the
null was written toward the store), and patching with a non-null status
alongside a non-null content writes the enum member's value. -/
theorem C10_null_passthrough_witness :
    ShipmentService.patch_shipment sampleStore 1
        { destination := some none } =
      (.error (.integrityError "destination"), sampleStore) ∧
    (ShipmentService.patch_shipment sampleStore 1
        { content := some (some "gear"),
          status := some (some .delivered) }).2.rows =
      sampleStore.rows.map (fun r =>
        if r.id == 1 then
          { r with content := "gear", status := "delivered" } else r) :=
  ⟨(C10_null_passthrough sampleStore 1 { destination := some none }
      (by decide)).1 (Or.inr (Or.inr (Or.inr rfl))),
   (C10_null_passthrough sampleStore 1
      { content := some (some "gear"), status := some (some .delivered) }
      (by decide)).2 .delivered rfl (by decide)⟩

/-- C1 counterexample: a partial-update payload explicitly supplying
weight as null on an existing id does not "change exactly the supplied
fields and return the record read back": the write hits the NOT NULL
constraint, the call returns an IntegrityError instead of a record, and
the supplied field is left untouched (the store is unchanged). -/
theorem C1_counterexample :
    ShipmentService.patch_shipment sampleStore 1 { weight := some none } =
      (.error (.integrityError "weight"), sampleStore) := by
  rfl

/-- C1 (amended): for an existing id and a partial-update payload none of
whose explicitly-supplied values is null, `patch_shipment` changes
exactly the supplied fields of the stored record (converting a supplied
status to its enum value) and leaves every other field — the id included
— and every other record at its prior value; when no field is supplied it
performs no write and the store is byte-for-byte unchanged; and it
returns the record read back from the store after the operation.
Payloads supplying an explicit null instead fail on the NOT NULL
constraint with the store unchanged (see the counterexample). -/
theorem C1_patch_frame_amended (s : Store) (i : Int) (p : ShipmentPatch)
    (hex : ShipmentRepository.exists_id s i = true)
    (hnn : p.dumpExcludeUnset.hasNull = false) :
    (ShipmentService.patch_shipment s i p).2.nextId = s.nextId ∧
    (ShipmentService.patch_shipment s i p).2.rows =
      s.rows.map (fun r =>
        if r.id == i then
          { id := r.id
            content := (match p.content with | some (some c) => c | _ => r.content)
            weight := (match p.weight with | some (some w) => w | _ => r.weight)
            status := (match p.status with | some (some st) => st.value | _ => r.status)
            destination := (match p.destination with | some (some v) => v | _ => r.destination) }
        else r) ∧
    (p.content = none → p.weight = none → p.status = none →
      p.destination = none → (ShipmentService.patch_shipment s i p).2 = s) ∧
    (ShipmentService.patch_shipment s i p).1 =
      (ShipmentService.get_shipment
        (ShipmentService.patch_shipment s i p).2 i).1 := by
  have hfun : (fun r : Row =>
      if r.id == i then p.dumpExcludeUnset.apply r else r) =
      (fun r : Row =>
        if r.id == i then
          { id := r.id
            content := (match p.content with | some (some c) => c | _ => r.content)
            weight := (match p.weight with | some (some w) => w | _ => r.weight)
            status := (match p.status with | some (some st) => st.value | _ => r.status)
            destination := (match p.destination with | some (some v) => v | _ => r.destination) }
        else r) := by
    funext r
    cases hps : p.status with
    | none => simp [ShipmentPatch.dumpExcludeUnset, UpdateData.apply, hps]
    | some os =>
      cases os with
      | none => simp [ShipmentPatch.dumpExcludeUnset, UpdateData.apply, hps]
      | some st => simp [ShipmentPatch.dumpExcludeUnset, UpdateData.apply, hps]
  by_cases hemp : p.dumpExcludeUnset.isEmpty = true
  · have hid : (ShipmentService.patch_shipment s i p).2 = s := by
      simp [ShipmentService.patch_shipment, hex, hemp]
    have h2 : s.rows.map (fun r : Row =>
        if r.id == i then p.dumpExcludeUnset.apply r else r) = s.rows := by
      have hpoint : ∀ r : Row,
          (if r.id == i then p.dumpExcludeUnset.apply r else r) = r := by
        intro r
        rw [UpdateData.apply_of_isEmpty _ hemp, ite_self]
      simp only [hpoint, List.map_id']
    refine ⟨by rw [hid], ?_, fun _ _ _ _ => hid, ?_⟩
    · rw [hid, ← hfun, h2]
    · simp [ShipmentService.patch_shipment, hex, hemp]
  · have hpatch : ShipmentRepository.patch_by_id s i p.dumpExcludeUnset =
        .ok { rows := s.rows.map (fun r =>
                if r.id == i then p.dumpExcludeUnset.apply r else r)
              nextId := s.nextId } := by
      unfold ShipmentRepository.patch_by_id
      rw [if_neg hemp, if_neg (by rw [hnn]; simp)]
    have hsvc : ShipmentService.patch_shipment s i p =
        ((ShipmentService.get_shipment
            { rows := s.rows.map (fun r =>
                if r.id == i then p.dumpExcludeUnset.apply r else r)
              nextId := s.nextId } i).1,
          { rows := s.rows.map (fun r =>
              if r.id == i then p.dumpExcludeUnset.apply r else r)
            nextId := s.nextId }) := by
      simp [ShipmentService.patch_shipment, hex, hemp, hpatch]
    refine ⟨by rw [hsvc], ?_, ?_, by rw [hsvc]⟩
    · rw [hsvc]
      rw [← hfun]
    · intro hc hw hst hd
      exact absurd (by
        rw [ShipmentPatch.dump_isEmpty p, hc, hw, hst, hd]
        rfl) hemp

/-- C1 witness: patching weight to 7 on the sample store keeps the
AUTOINCREMENT counter and returns the record read back after the write. -/
theorem C1_patch_frame_amended_witness :
    (ShipmentService.patch_shipment sampleStore 1
        { weight := some (some 7) }).2.nextId = sampleStore.nextId ∧
    (ShipmentService.patch_shipment sampleStore 1
        { weight := some (some 7) }).1 =
      (ShipmentService.get_shipment
        (ShipmentService.patch_shipment sampleStore 1
          { weight := some (some 7) }).2 1).1 :=
  ⟨(C1_patch_frame_amended sampleStore 1 { weight := some (some 7) }
      (by decide) (by decide)).1,
   (C1_patch_frame_amended sampleStore 1 { weight := some (some 7) }
      (by decide) (by decide)).2.2.2⟩

/-- C9: on a well-formed store, with the pydantic-validated payloads the
boundary lets through and an in-range random draw, every operation that
fails with any error leaves the stored state exactly as it was — no
partial write is committed.  The four read operations never change the
store at all; for the four writers, every error path returns the
untouched store. -/
theorem C9_no_partial_writes (s : Store) (i : Int) (rnd : Int)
    (field : String) (c : ShipmentCreate) (u : ShipmentUpdate)
    (p : ShipmentPatch) (hwf : StoreWF s) (hcv : c.Valid)
    (hrnd : 11000 ≤ rnd ∧ rnd ≤ 11999) (huv : u.Valid) (hpv : p.Valid) :
    (ShipmentService.get_shipment s i).2 = s ∧
    (ShipmentService.get_latest_shipment s).2 = s ∧
    (ShipmentService.list_all_shipments s).2 = s ∧
    (ShipmentService.get_shipment_field s i field).2 = s ∧
    (∀ e, (ShipmentService.create_shipment s c rnd).1 = .error e →
      (ShipmentService.create_shipment s c rnd).2 = s) ∧
    (∀ e, (ShipmentService.update_shipment s i u).1 = .error e →
      (ShipmentService.update_shipment s i u).2 = s) ∧
    (∀ e, (ShipmentService.patch_shipment s i p).1 = .error e →
      (ShipmentService.patch_shipment s i p).2 = s) ∧
    (∀ e, (ShipmentService.delete_shipment s i).1 = .error e →
      (ShipmentService.delete_shipment s i).2 = s) := by
  obtain ⟨hrows, hids⟩ := hwf
  refine ⟨?_, ?_, ?_, ?_, ?_, ?_, ?_, ?_⟩
  · unfold ShipmentService.get_shipment
    cases ShipmentRepository.find_by_id s i <;> rfl
  · unfold ShipmentService.get_latest_shipment
    cases ShipmentRepository.find_latest s <;> rfl
  · rfl
  · unfold ShipmentService.get_shipment_field
    cases ShipmentRepository.find_by_id s i with
    | none => rfl
    | some row => cases hl : row.lookupField field <;> simp [hl]
  · intro e he
    rw [create_shipment_ok s c rnd hids hcv hrnd] at he
    exact absurd he (by simp)
  · intro e he
    by_cases hex : ShipmentRepository.exists_id s i = true
    · exfalso
      have hsome : (s.rows.find? (fun r => r.id == i)).isSome := by
        rw [List.find?_isSome]
        obtain ⟨x, hx, hpx⟩ := List.any_eq_true.1 hex
        exact ⟨x, hx, hpx⟩
      obtain ⟨row₀, hfind⟩ := Option.isSome_iff_exists.1 hsome
      have hmap := find_map_keyed s.rows i
        (fun r => ⟨r.id, u.content, u.weight, u.status.value, u.destination⟩)
        (fun r => rfl)
      rw [hfind] at hmap
      have hrv : RowValid
          ⟨row₀.id, u.content, u.weight, u.status.value, u.destination⟩ :=
        ⟨huv.1, huv.2.1, huv.2.2.1,
          by rw [ShipmentStatus.ofString_value]; rfl,
          huv.2.2.2.1, huv.2.2.2.2⟩
      have hof := Shipment.ofRow_ok
        ⟨row₀.id, u.content, u.weight, u.status.value, u.destination⟩
        u.status (ShipmentStatus.ofString_value u.status) hrv
      simp only [ShipmentService.update_shipment, hex, Bool.not_true,
        Bool.false_eq_true, if_false, ShipmentService.get_shipment,
        ShipmentRepository.find_by_id, ShipmentRepository.update_by_id,
        hmap, Option.map_some', hof] at he
      cases he
    · have hexf : ShipmentRepository.exists_id s i = false :=
        Bool.not_eq_true _ ▸ Bool.eq_false_iff.2 hex
      simp [ShipmentService.update_shipment, hexf]
  · intro e he
    by_cases hex : ShipmentRepository.exists_id s i = true
    · by_cases hemp : p.dumpExcludeUnset.isEmpty = true
      · simp [ShipmentService.patch_shipment, hex, hemp]
      · by_cases hnul : p.dumpExcludeUnset.hasNull = true
        · have hany : s.rows.any (fun r => r.id == i) = true := hex
          simp [ShipmentService.patch_shipment, hex, hemp,
            ShipmentRepository.patch_by_id, hnul, hany]
        · exfalso
          have hnn : p.dumpExcludeUnset.hasNull = false :=
            Bool.not_eq_true _ ▸ Bool.eq_false_iff.2 hnul
          have hsome : (s.rows.find? (fun r => r.id == i)).isSome := by
            rw [List.find?_isSome]
            obtain ⟨x, hx, hpx⟩ := List.any_eq_true.1 hex
            exact ⟨x, hx, hpx⟩
          obtain ⟨row₀, hfind⟩ := Option.isSome_iff_exists.1 hsome
          have hmap := find_map_keyed s.rows i p.dumpExcludeUnset.apply
            (fun r => rfl)
          rw [hfind] at hmap
          have hrv : RowValid (p.dumpExcludeUnset.apply row₀) :=
            RowValid_apply_dump p hpv row₀
              (hrows row₀ (List.mem_of_find?_eq_some hfind))
          obtain ⟨st, hst⟩ := Option.isSome_iff_exists.1 hrv.2.2.2.1
          have hof := Shipment.ofRow_ok (p.dumpExcludeUnset.apply row₀)
            st hst hrv
          have hpatch : ShipmentRepository.patch_by_id s i
              p.dumpExcludeUnset =
              .ok { rows := s.rows.map (fun r =>
                      if r.id == i then p.dumpExcludeUnset.apply r else r)
                    nextId := s.nextId } := by
            unfold ShipmentRepository.patch_by_id
            rw [if_neg hemp, if_neg (by rw [hnn]; simp)]
          simp only [ShipmentService.patch_shipment, hex, Bool.not_true,
            Bool.false_eq_true, if_false, hemp, hpatch,
            ShipmentService.get_shipment, ShipmentRepository.find_by_id,
            hmap, Option.map_some', hof] at he
          cases he
    · have hexf : ShipmentRepository.exists_id s i = false :=
        Bool.not_eq_true _ ▸ Bool.eq_false_iff.2 hex
      simp [ShipmentService.patch_shipment, hexf]
  · intro e he
    by_cases hex : ShipmentRepository.exists_id s i = true
    · simp [ShipmentService.delete_shipment, hex] at he
    · have hexf : ShipmentRepository.exists_id s i = false :=
        Bool.not_eq_true _ ▸ Bool.eq_false_iff.2 hex
      simp [ShipmentService.delete_shipment, hexf]

/-- C9 witness: the read operations on the sample store (with all
payload-validity hypotheses discharged on concrete valid data) leave the
store untouched. -/
theorem C9_no_partial_writes_witness :
    (ShipmentService.get_shipment sampleStore 1).2 = sampleStore ∧
    (ShipmentService.get_latest_shipment sampleStore).2 = sampleStore :=
  ⟨(C9_no_partial_writes sampleStore 1 11500 "status"
      { content := "books", weight := 5, status := .pending }
      { content := "books", weight := 5, status := .pending,
        destination := 11234 }
      { weight := some (some 7) }
      (by decide) (by decide) (by decide) (by decide) (by decide)).1,
   (C9_no_partial_writes sampleStore 1 11500 "status"
      { content := "books", weight := 5, status := .pending }
      { content := "books", weight := 5, status := .pending,
        destination := 11234 }
      { weight := some (some 7) }
      (by decide) (by decide) (by decide) (by decide) (by decide)).2.1⟩
